import Mathlib

set_option maxHeartbeats 1000000

/-!
Shallow embedding of the redis-rate-limit library (`src/class.ts`).

The remote store (Redis) is modelled as an association list of integer
values together with an association list of absolute expiry timestamps
(milliseconds since epoch).  Every value stored by this library through
the store is an integer (a request counter or a timestamp), so integer
values suffice.  Expiry is applied lazily: a key is live when it is
present and its expiry timestamp, if any, is still strictly in the
future, matching Redis millisecond-expiry semantics (`PEXPIRE k ms` with
`ms <= 0` deletes the key; `PTTL` is -2 for a missing key and -1 for a
key without expiry).

JavaScript numbers are modelled by `JSNum`: an integer or `NaN`
(`parseInt` of a missing or malformed reply yields `NaN`, and
`NaN <= x` is false).  Store faults are injected through `StoreFault`,
one constructor per await site of `RateLimit.limit` that can fail.
-/

namespace RedisRateLimit

def lookup : List (String × Int) → String → Option Int
  | [], _ => none
  | (k', v) :: t, k => if k' = k then some v else lookup t k

def removeKey : List (String × Int) → String → List (String × Int)
  | [], _ => []
  | (k', v) :: t, k => if k' = k then removeKey t k else (k', v) :: removeKey t k

def insertKey (l : List (String × Int)) (k : String) (v : Int) : List (String × Int) :=
  (k, v) :: removeKey l k

/-- The remote store: integer values plus absolute expiry timestamps. -/
structure Redis where
  kv : List (String × Int)
  exp : List (String × Int)
deriving DecidableEq

/-- A key is live when present and not yet expired (`now < expiry`). -/
def Redis.live (r : Redis) (now : Int) (k : String) : Bool :=
  match lookup r.kv k with
  | none => false
  | some _ =>
    match lookup r.exp k with
    | none => true
    | some e => decide (now < e)

/-- `GET`: the stored value of a live key. -/
def Redis.get (r : Redis) (now : Int) (k : String) : Option Int :=
  if r.live now k then lookup r.kv k else none

/-- `PTTL`: remaining milliseconds, -1 without expiry, -2 when absent. -/
def Redis.pttl (r : Redis) (now : Int) (k : String) : Int :=
  if r.live now k then
    match lookup r.exp k with
    | none => -1
    | some e => e - now
  else -2

/-- `DEL`. -/
def Redis.del (r : Redis) (k : String) : Redis :=
  ⟨removeKey r.kv k, removeKey r.exp k⟩

/-- `SET`: stores the value and clears any expiry. -/
def Redis.set (r : Redis) (k : String) (v : Int) : Redis :=
  ⟨insertKey r.kv k v, removeKey r.exp k⟩

/-- `INCR`: increments a live key, otherwise creates it at 1 with no expiry. -/
def Redis.incr (r : Redis) (now : Int) (k : String) : Int × Redis :=
  match r.get now k with
  | some v => (v + 1, ⟨insertKey r.kv k (v + 1), r.exp⟩)
  | none => (1, ⟨insertKey r.kv k 1, removeKey r.exp k⟩)

/-- `PEXPIRE`: sets the expiry of a live key; a non-positive ttl deletes it. -/
def Redis.pexpire (r : Redis) (now : Int) (k : String) (ms : Int) : Redis :=
  if r.live now k then
    if ms ≤ 0 then r.del k
    else ⟨r.kv, insertKey r.exp k (now + ms)⟩
  else r

/-- The in-memory blocklist cache (`class Cache`): key to reset timestamp. -/
structure Cache where
  entries : List (String × Int)
deriving DecidableEq

/--
`Cache.isBlocked` (class.ts lines 329-336).  The source tests
`if (!reset || reset < Date.now())`: a missing entry, a zero entry
(JavaScript falsiness) or a strictly past timestamp is evicted and
reported unblocked; otherwise the entry blocks.
-/
def Cache.isBlocked (c : Cache) (now : Int) (k : String) : (Bool × Int) × Cache :=
  match lookup c.entries k with
  | none => ((false, 0), ⟨removeKey c.entries k⟩)
  | some reset =>
    if reset = 0 ∨ reset < now then ((false, 0), ⟨removeKey c.entries k⟩)
    else ((true, reset), c)

/-- `Cache.blockUntil` (lines 338-340). -/
def Cache.blockUntil (c : Cache) (k : String) (reset : Int) : Cache :=
  ⟨insertKey c.entries k reset⟩

/-- `Cache.pop` (lines 357-359). -/
def Cache.pop (c : Cache) (k : String) : Cache :=
  ⟨removeKey c.entries k⟩

/-- A JavaScript number as it occurs here: an integer or `NaN`. -/
inductive JSNum where
  | int : Int → JSNum
  | nan : JSNum
deriving DecidableEq

/-- JavaScript `<=` against an integer: false when the left side is `NaN`. -/
def jsLe : JSNum → Int → Bool
  | .int a, b => decide (a ≤ b)
  | .nan, _ => false

/-- JavaScript subtraction `a - current`: `NaN` propagates. -/
def jsSubL (a : Int) : JSNum → JSNum
  | .int b => .int (a - b)
  | .nan => .nan

/-- JavaScript `Math.max(x, 0)`: `Math.max(NaN, 0)` is `NaN`. -/
def jsMax0 : JSNum → JSNum
  | .int a => .int (max a 0)
  | .nan => .nan

/--
The check `current === undefined` at class.ts line 224: `parseInt`
always returns a number (possibly `NaN`), and a number is never
`undefined`, so this comparison is false for every parsed value.
-/
def jsNumIsUndefined (_ : JSNum) : Bool := false

/-- Constructor-time configuration; `none` models an omitted option. -/
structure RateLimitConfig where
  keyPrefix : String
  window : Option Int
  limit : Option Int
  difference : Option Int
  ephemeralCache : Option Bool
deriving DecidableEq

/-- The constructed limiter state (fields of `class RateLimit`). -/
structure RateLimit where
  keyPrefix : String
  window : Int
  maxRequest : Int
  difference : Int
  hasLocalCache : Bool
deriving DecidableEq

/-- Constructor outcome: the limiter plus whether the clamp warning was printed. -/
structure ConstructResult where
  rl : RateLimit
  warnedClamp : Bool
deriving DecidableEq

/--
The constructor (class.ts lines 113-149).  Throws only when no Redis
client is supplied (modelled by `none`).  An omitted window defaults to
1000 and an omitted difference to 0 (default parameter values: they
apply only when the argument is absent).  A difference larger than the
window is clamped to the window with a `console.error` warning, and a
limit below 1 is coerced to 5.
-/
def RateLimit.make (redisProvided : Bool) (cfg : RateLimitConfig) : Option ConstructResult :=
  if !redisProvided then none
  else
    let window := cfg.window.getD 1000
    let difference0 := cfg.difference.getD 0
    let difference := if window < difference0 then window else difference0
    let limit0 := cfg.limit.getD 1
    let maxRequest := if limit0 < 1 then 5 else limit0
    some ⟨⟨cfg.keyPrefix, window, maxRequest, difference, cfg.ephemeralCache.getD true⟩,
      decide (window < difference0)⟩

/-- The result shape of `RateLimit.limit` (the `reset` closure is elided). -/
structure RateLimitResponse where
  key : String
  success : Bool
  remaining : JSNum
  limit : Int
  ttl : Int
  error : Option String
  statusCode : Int
deriving DecidableEq

/-- `createLimitResponse` (lines 271-286): statusCode 0, no error field. -/
def RateLimit.createLimitResponse (rl : RateLimit) (success : Bool) (remaining : JSNum)
    (ttl : Int) (key : String) : RateLimitResponse :=
  ⟨key, success, remaining, rl.maxRequest, ttl, none, 0⟩

/--
`createErrorResponse` (lines 288-305): success false, `remaining ?? 0`,
`ttl ?? 0`, and `statusCode || -2` (a zero status code is falsy and
becomes -2).
-/
def RateLimit.createErrorResponse (rl : RateLimit) (error : String) (key : String)
    (statusCode : Int) (ttl : Option Int) (remaining : Option JSNum) : RateLimitResponse :=
  ⟨key, false, remaining.getD (.int 0), rl.maxRequest, ttl.getD 0, some error,
    if statusCode = 0 then -2 else statusCode⟩

/-- Combined mutable state: the shared remote store and the local cache. -/
structure World where
  redis : Redis
  cache : Cache
deriving DecidableEq

/-- Which remote await site of a `limit` call fails, if any. -/
inductive StoreFault where
  /-- every remote operation succeeds -/
  | ok
  /-- the cooldown `GET` (line 178) rejects -/
  | failDiffGet
  /-- the `multi().exec()` (lines 205-219) rejects, e.g. connection failure -/
  | failExec
  /-- `exec` resolves a null or malformed reply: no effects, `parseInt` gives `NaN` -/
  | nullReply
  /-- the `PTTL` inside `getRemainingAndTTL` (line 267) rejects -/
  | failPttl
deriving DecidableEq

/-- `getRemainingAndTTL` (lines 262-269): `Math.max(limit - current, 0)` and `PTTL`. -/
def RateLimit.getRemainingAndTTL (rl : RateLimit) (r : Redis) (now : Int)
    (key : String) (current : JSNum) : JSNum × Int :=
  (jsMax0 (jsSubL rl.maxRequest current), r.pttl now key)

/-- `getKeyInfo` (lines 256-260): `parseInt(GET key) || 0`, then remaining and ttl. -/
def RateLimit.getKeyInfo (rl : RateLimit) (r : Redis) (now : Int) (key : String) :
    Int × Int × Int :=
  let current := (r.get now key).getD 0
  (current, max (rl.maxRequest - current) 0, r.pttl now key)

/--
Lines 205-253 of `RateLimit.limit`: the `multi` transaction
(`INCR key`, `SET differenceKey now`, `PEXPIRE differenceKey difference`),
the conditional window expiry set only by the caller observing
`current == 1`, the dead `current === undefined` guard, the success
computation, caching of over-limit keys, and the outer catch.  The last
`Nat` of the result counts remote commands issued by the call,
`opsBefore` being the count accumulated by the cooldown step.
-/
def RateLimit.limitIncr (rl : RateLimit) (fault : StoreFault) (now : Int)
    (w : World) (key differenceKey : String) (opsBefore : Nat) :
    RateLimitResponse × World × Nat :=
  if fault = .failExec then
    (rl.createErrorResponse "Failed to rate limit request" key (-1) none none, w, opsBefore + 1)
  else
    let execOut : Redis × JSNum × Nat :=
      if fault = .nullReply then (w.redis, .nan, 1)
      else
        let ir := w.redis.incr now key
        let r2 := (ir.2.set differenceKey now).pexpire now differenceKey rl.difference
        let r3 := if ir.1 = 1 then r2.pexpire now key rl.window else r2
        (r3, .int ir.1, if ir.1 = 1 then 4 else 3)
    let r := execOut.1
    let current := execOut.2.1
    if jsNumIsUndefined current then
      (rl.createErrorResponse "Failed to rate limit request." key (-1) none none,
        ⟨r, w.cache⟩, opsBefore + execOut.2.2)
    else
      let success := jsLe current rl.maxRequest
      if fault = .failPttl then
        (rl.createErrorResponse "Failed to rate limit request" key (-1) none none,
          ⟨r, w.cache⟩, opsBefore + execOut.2.2 + 1)
      else
        let rt := rl.getRemainingAndTTL r now key current
        if !success && rl.hasLocalCache then
          (rl.createErrorResponse "Too many requests." key (-2) (some rt.2) none,
            ⟨r, w.cache.blockUntil key (now + rt.2)⟩, opsBefore + execOut.2.2 + 1)
        else
          (rl.createLimitResponse success rt.1 rt.2 key, ⟨r, w.cache⟩,
            opsBefore + execOut.2.2 + 1)

/--
`RateLimit.limit` (lines 156-254).  Step order: local-cache fast path
(lines 162-173), cooldown check guarded by `if (this.difference)`
(lines 176-203, with its inner catch), then the increment transaction
and result construction via `limitIncr`.
-/
def RateLimit.limit (rl : RateLimit) (fault : StoreFault) (now : Int)
    (w : World) (id : String) : RateLimitResponse × World × Nat :=
  let key := rl.keyPrefix ++ ":" ++ id
  let differenceKey := key ++ ":last"
  let afterCache : Option RateLimitResponse × World :=
    if rl.hasLocalCache then
      let res := w.cache.isBlocked now key
      if res.1.1 then
        (some (rl.createErrorResponse "Too many requests." key (-2)
          (some (res.1.2 - now)) none), ⟨w.redis, res.2⟩)
      else (none, ⟨w.redis, res.2⟩)
    else (none, w)
  match afterCache with
  | (some resp, w1) => (resp, w1, 0)
  | (none, w1) =>
    if rl.difference ≠ 0 then
      if fault = .failDiffGet then
        (rl.createErrorResponse "Failed to check difference between requests." key (-1)
          none none, w1, 1)
      else
        match w1.redis.get now differenceKey with
        | some last =>
          if now - last < rl.difference then
            let info := rl.getKeyInfo w1.redis now key
            (rl.createErrorResponse "Request too soon after the last one." key (-3)
              (some info.2.2) (some (.int info.2.1)), w1, 3)
          else rl.limitIncr fault now w1 key differenceKey 1
        | none => rl.limitIncr fault now w1 key differenceKey 1
    else rl.limitIncr fault now w1 key differenceKey 0

/--
`RateLimit.reset` (lines 307-316): `DEL key`, then evict the local
cache entry; any store failure is caught and logged (the returned Bool
records that the logger ran) leaving the state untouched.
-/
def RateLimit.reset (rl : RateLimit) (delFails : Bool) (w : World) (key : String) :
    World × Bool :=
  if delFails then (w, true)
  else
    let r := w.redis.del key
    let c := if rl.hasLocalCache then w.cache.pop key else w.cache
    (⟨r, c⟩, false)

/-- The empty world: nothing in the remote store, nothing cached. -/
def freshWorld : World := ⟨⟨[], []⟩, ⟨[]⟩⟩

/-- The world after `n` successive fault-free `limit` calls from `freshWorld`. -/
def runCalls (rl : RateLimit) (now : Int) (id : String) : Nat → World
  | 0 => freshWorld
  | n + 1 => (rl.limit .ok now (runCalls rl now id n) id).2.1

/-- The response of the `(n+1)`-th fault-free `limit` call from `freshWorld`. -/
def nthCallResp (rl : RateLimit) (now : Int) (id : String) (n : Nat) : RateLimitResponse :=
  (rl.limit .ok now (runCalls rl now id n) id).1

/--
The world in the middle of a window: the counter key holds `k` and
expires at `now + window`, the last-request key is absent (with
difference 0 the transaction sets it and immediately deletes it via
`PEXPIRE 0`), and the local cache is empty.
-/
def countingWorld (key : String) (now window : Int) (k : Int) : World :=
  ⟨⟨[(key, k)], [(key, now + window)]⟩, ⟨[]⟩⟩

/-- The counter key and its derived last-request key are distinct strings. -/
theorem appendLast_ne (s : String) : s ++ ":last" ≠ s := by
  intro h
  have h2 := congrArg String.length h
  rw [String.length_append] at h2
  have h3 : (":last" : String).length = 5 := rfl
  rw [h3] at h2
  omega

theorem lookup_removeKey_self (l : List (String × Int)) (k : String) :
    lookup (removeKey l k) k = none := by
  induction l with
  | nil => rfl
  | cons p t ih =>
    obtain ⟨a, b⟩ := p
    by_cases h : a = k <;> simp [removeKey, lookup, h, ih]

theorem lookup_removeKey_ne (l : List (String × Int)) (k k' : String) (h : k ≠ k') :
    lookup (removeKey l k') k = lookup l k := by
  induction l with
  | nil => rfl
  | cons p t ih =>
    obtain ⟨a, b⟩ := p
    by_cases ha : a = k'
    · have hak : k' ≠ k := Ne.symm h
      simp [removeKey, lookup, ha, hak, ih]
    · simp [removeKey, lookup, ha, ih]

theorem removeKey_removeKey (l : List (String × Int)) (k : String) :
    removeKey (removeKey l k) k = removeKey l k := by
  induction l with
  | nil => rfl
  | cons p t ih =>
    obtain ⟨a, b⟩ := p
    by_cases h : a = k <;> simp [removeKey, h, ih]

/--
C9 counterexample: the claim says `isBlocked` reports blocked only when
the stored timestamp is strictly in the future, but with the entry
timestamp equal to the current time (`reset = now = 5`, so not strictly
greater) the source test `!reset || reset < Date.now()` is false and the
key is reported blocked.
-/
theorem c9_counterexample :
    ((Cache.isBlocked ⟨[("k", 5)]⟩ 5 "k").1.1 = true) ∧
    (decide ((5 : Int) > 5) = false) := by decide

/--
C9 (amended): `isBlocked` returns blocked exactly when an entry exists
whose timestamp is nonzero (zero is JavaScript-falsy) and is greater
than or equal to the current time; when blocked it returns the stored
timestamp and leaves the cache unchanged, otherwise it returns reset 0
and removes the entry for the key.
-/
theorem c9_isBlocked_characterization (c : Cache) (now : Int) (k : String) :
    ((c.isBlocked now k).1.1 = true ↔
      ∃ t, lookup c.entries k = some t ∧ t ≠ 0 ∧ now ≤ t) ∧
    ((c.isBlocked now k).1.1 = true →
      (c.isBlocked now k).2 = c ∧
      lookup c.entries k = some (c.isBlocked now k).1.2) ∧
    ((c.isBlocked now k).1.1 = false →
      (c.isBlocked now k).1.2 = 0 ∧
      (c.isBlocked now k).2.entries = removeKey c.entries k) := by
  cases hl : lookup c.entries k with
  | none => simp [Cache.isBlocked, hl]
  | some t =>
    by_cases hb : t = 0 ∨ t < now
    · simp only [Cache.isBlocked, hl, if_pos hb]
      refine ⟨?_, ?_, ?_⟩
      · simp
        omega
      · intro h
        simp at h
      · intro _
        simp [hl]
    · simp only [Cache.isBlocked, hl, if_neg hb]
      refine ⟨?_, ?_, ?_⟩
      · simp [hl]
        omega
      · intro _
        simp [hl]
      · intro h
        simp at h

/-- C9 witness: a concrete still-blocking entry, via the characterization. -/
theorem c9_witness :
    (Cache.isBlocked ⟨[("k", 5)]⟩ 3 "k").2 = (⟨[("k", 5)]⟩ : Cache) :=
  (((c9_isBlocked_characterization ⟨[("k", 5)]⟩ 3 "k").2.1) (by decide)).1

/--
C8: the claim (and the source doc comment at class.ts line 17,
`@default 1000 if not provided or < 0`) says a negative window defaults
to 1000 milliseconds, but the constructor only applies the default to an
omitted window: `window = -5` is kept as the effective window.
-/
theorem c8_negative_window_kept :
    (RateLimit.make true ⟨"p", some (-5), none, none, none⟩).map
      (fun r => r.rl.window) = some (-5) ∧
    (RateLimit.make true ⟨"p", none, none, none, none⟩).map
      (fun r => r.rl.window) = some 1000 := by decide

/--
C7: construction with `difference > window` succeeds; the effective
difference is clamped to the window and the clamp is signalled by the
`console.error` warning; for every other configuration the value is kept
as given, and in all cases the invariant `difference <= window` holds
after construction.
-/
theorem c7_cooldown_clamped_at_construction (cfg : RateLimitConfig) :
    ∃ r, RateLimit.make true cfg = some r ∧
      r.rl.window = cfg.window.getD 1000 ∧
      (cfg.window.getD 1000 < cfg.difference.getD 0 →
        r.rl.difference = r.rl.window ∧ r.warnedClamp = true) ∧
      (cfg.difference.getD 0 ≤ cfg.window.getD 1000 →
        r.rl.difference = cfg.difference.getD 0 ∧ r.warnedClamp = false) ∧
      r.rl.difference ≤ r.rl.window := by
  refine ⟨_, rfl, rfl, ?_, ?_, ?_⟩
  · intro h
    simp [RateLimit.make, if_pos h, h]
  · intro h
    have h2 : ¬ cfg.window.getD 1000 < cfg.difference.getD 0 := not_lt.mpr h
    simp [RateLimit.make, if_neg h2, h2]
  · by_cases h : cfg.window.getD 1000 < cfg.difference.getD 0
    · simp [RateLimit.make, h]
    · simp [RateLimit.make, h]
      omega

/-- C7 witness: difference 2000 against window 1000 is clamped with a warning. -/
theorem c7_witness :
    ∃ r, RateLimit.make true ⟨"p", some 1000, some 3, some 2000, some true⟩ = some r ∧
      r.rl.difference = r.rl.window ∧ r.warnedClamp = true := by
  obtain ⟨r, hmk, _, hclamp, _, _⟩ :=
    c7_cooldown_clamped_at_construction ⟨"p", some 1000, some 3, some 2000, some true⟩
  exact ⟨r, hmk, (hclamp (by decide)).1, (hclamp (by decide)).2⟩

/--
C6 counterexample: with the cooldown feature active (difference 500), a
`limit` call at time 100 stores both the counter key `p:a` and the
last-request key `p:a:last`; `reset` on `p:a` deletes the counter key
but leaves `p:a:last` in the remote store, contrary to the claim that
reset also deletes the derived last-request key.
-/
theorem c6_counterexample :
    ((RateLimit.reset ⟨"p", 1000, 5, 500, true⟩ false
        (RateLimit.limit ⟨"p", 1000, 5, 500, true⟩ .ok 100 freshWorld "a").2.1
        "p:a").1.redis.get 200 "p:a:last" = some 100) ∧
    ((RateLimit.reset ⟨"p", 1000, 5, 500, true⟩ false
        (RateLimit.limit ⟨"p", 1000, 5, 500, true⟩ .ok 100 freshWorld "a").2.1
        "p:a").1.redis.get 200 "p:a" = none) := by decide

/--
C6 (amended): `reset` deletes the remote counter key and evicts the
local cache entry, but does not delete the derived last-request key
`<key>:last` (that key only disappears through its own expiry); reset is
idempotent, safe on a key with no record, and a store failure is
converted into a logged no-op.
-/
theorem c6_reset_behavior (rl : RateLimit) (w : World) (key : String) (now : Int) :
    (rl.reset false w key).1.redis = w.redis.del key ∧
    (rl.reset false w key).1.redis.get now (key ++ ":last") =
      w.redis.get now (key ++ ":last") ∧
    (rl.reset false w key).1.cache =
      (if rl.hasLocalCache then w.cache.pop key else w.cache) ∧
    rl.reset false (rl.reset false w key).1 key = rl.reset false w key ∧
    rl.reset true w key = (w, true) := by
  have h1 : key ++ ":last" ≠ key := appendLast_ne key
  refine ⟨rfl, ?_, ?_, ?_, rfl⟩
  · simp [RateLimit.reset, Redis.del, Redis.get, Redis.live,
      lookup_removeKey_ne _ _ _ h1]
  · rfl
  · cases hc : rl.hasLocalCache <;>
      simp [RateLimit.reset, Redis.del, Cache.pop, hc, removeKey_removeKey]

/--
C2: the claim (matching the intent of the dead guard at class.ts line
224, which tries to return the statusCode -1 store-error response when
the increment reply cannot be parsed) says every store failure during
`check` yields a rejection carrying a non-empty error description.  The
code is fail-closed (`success = false`, because `NaN <= limit` is
false), but when `exec` resolves a null or malformed reply and the local
cache is disabled, the result flows through the success-path constructor
`createLimitResponse`: statusCode 0 and no error field at all, since
`parseInt` yields `NaN`, never `undefined`, so the guard cannot fire.
-/
theorem c2_malformed_reply_has_no_error_description :
    ((RateLimit.limit ⟨"p", 1000, 3, 0, false⟩ .nullReply 0 freshWorld "a").1.success
        = false) ∧
    ((RateLimit.limit ⟨"p", 1000, 3, 0, false⟩ .nullReply 0 freshWorld "a").1.error
        = none) ∧
    ((RateLimit.limit ⟨"p", 1000, 3, 0, false⟩ .nullReply 0 freshWorld "a").1.statusCode
        = 0) ∧
    ((RateLimit.limit ⟨"p", 1000, 3, 0, false⟩ .failExec 0 freshWorld "a").1.error
        = some "Failed to rate limit request") := by decide

/--
C4: when the local cache is enabled and reports the key blocked, `limit`
returns the "Too many requests." rejection with ttl equal to the cached
reset timestamp minus the captured now, and performs no remote-store
operation whatever the fault state of the store: the store state is
returned unchanged and the remote-command count of the call is zero.
-/
theorem c4_local_fast_path_no_remote_ops (rl : RateLimit) (fault : StoreFault)
    (now : Int) (w : World) (id : String)
    (hc : rl.hasLocalCache = true)
    (hb : (w.cache.isBlocked now (rl.keyPrefix ++ ":" ++ id)).1.1 = true) :
    (rl.limit fault now w id).1 =
      rl.createErrorResponse "Too many requests." (rl.keyPrefix ++ ":" ++ id) (-2)
        (some ((w.cache.isBlocked now (rl.keyPrefix ++ ":" ++ id)).1.2 - now)) none ∧
    (rl.limit fault now w id).1.ttl =
      (w.cache.isBlocked now (rl.keyPrefix ++ ":" ++ id)).1.2 - now ∧
    (rl.limit fault now w id).1.success = false ∧
    (rl.limit fault now w id).2.1.redis = w.redis ∧
    (rl.limit fault now w id).2.2 = 0 := by
  simp [RateLimit.limit, hc, hb, RateLimit.createErrorResponse]

/-- C4 witness: a blocked cache entry short-circuits a concrete call. -/
theorem c4_witness :
    (RateLimit.limit ⟨"p", 1000, 2, 0, true⟩ .ok 50
      ⟨⟨[], []⟩, ⟨[("p:a", 100)]⟩⟩ "a").1.ttl = 50 ∧
    (RateLimit.limit ⟨"p", 1000, 2, 0, true⟩ .ok 50
      ⟨⟨[], []⟩, ⟨[("p:a", 100)]⟩⟩ "a").2.2 = 0 := by
  have h := c4_local_fast_path_no_remote_ops ⟨"p", 1000, 2, 0, true⟩ .ok 50
    ⟨⟨[], []⟩, ⟨[("p:a", 100)]⟩⟩ "a" rfl (by decide)
  exact ⟨by rw [h.2.1]; decide, h.2.2.2.2⟩

/--
C5 counterexample: with the local cache enabled (the default), the
quota-exceeded outcome does carry an error field: a limiter with limit 1
admits the first call and the second call at the same instant returns
`error = "Too many requests."` with statusCode -2, contradicting the
claim that quota-exceeded is represented with no error field regardless
of the cache setting.
-/
theorem c5_counterexample :
    ((RateLimit.limit ⟨"p", 1000, 1, 0, true⟩ .ok 0
        (RateLimit.limit ⟨"p", 1000, 1, 0, true⟩ .ok 0 freshWorld "a").2.1
        "a").1.error = some "Too many requests.") ∧
    ((RateLimit.limit ⟨"p", 1000, 1, 0, true⟩ .ok 0
        (RateLimit.limit ⟨"p", 1000, 1, 0, true⟩ .ok 0 freshWorld "a").2.1
        "a").1.statusCode = -2) ∧
    ((RateLimit.limit ⟨"p", 1000, 1, 0, true⟩ .ok 0
        (RateLimit.limit ⟨"p", 1000, 1, 0, true⟩ .ok 0 freshWorld "a").2.1
        "a").1.success = false) := by decide

/--
C5 (amended): a call whose post-increment count strictly exceeds the
limit (no store error, no cooldown rejection) returns success false; it
carries no error field only when the local cache is disabled, while with
the cache enabled it carries the error description "Too many requests.".
-/
theorem c5_quota_exceeded_error_field (rl : RateLimit) (now : Int) (w : World)
    (key differenceKey : String) (ops : Nat)
    (hover : rl.maxRequest < (w.redis.incr now key).1) :
    (rl.limitIncr .ok now w key differenceKey ops).1.success = false ∧
    (rl.limitIncr .ok now w key differenceKey ops).1.error =
      (if rl.hasLocalCache then some "Too many requests." else none) := by
  have hle : jsLe (.int (w.redis.incr now key).1) rl.maxRequest = false := by
    simp [jsLe]
    omega
  cases hcache : rl.hasLocalCache <;>
    simp [RateLimit.limitIncr, hle, hcache, RateLimit.createErrorResponse,
      RateLimit.createLimitResponse, RateLimit.getRemainingAndTTL, jsNumIsUndefined]

/-- C5 witness: a concrete over-limit increment with the cache enabled. -/
theorem c5_witness :
    (RateLimit.limitIncr ⟨"p", 1000, 1, 0, true⟩ .ok 0
      ⟨⟨[("p:a", 1)], []⟩, ⟨[]⟩⟩ "p:a" "p:a:last" 0).1.error =
      some "Too many requests." := by
  have h := c5_quota_exceeded_error_field ⟨"p", 1000, 1, 0, true⟩ 0
    ⟨⟨[("p:a", 1)], []⟩, ⟨[]⟩⟩ "p:a" "p:a:last" 0 (by decide)
  rw [h.2]
  decide

/--
C10: an over-limit call with the local cache disabled flows through the
success-path constructor `createLimitResponse`: success false with
statusCode 0 and no error field; the same outcome with the cache enabled
flows through `createErrorResponse`: statusCode -2 with error
"Too many requests.".  In particular statusCode 0 does not imply
success.
-/
theorem c10_over_limit_status_code (rl : RateLimit) (now : Int) (w : World)
    (key differenceKey : String) (ops : Nat)
    (hover : rl.maxRequest < (w.redis.incr now key).1) :
    (rl.limitIncr .ok now w key differenceKey ops).1.success = false ∧
    (rl.hasLocalCache = false →
      (rl.limitIncr .ok now w key differenceKey ops).1.statusCode = 0 ∧
      (rl.limitIncr .ok now w key differenceKey ops).1.error = none) ∧
    (rl.hasLocalCache = true →
      (rl.limitIncr .ok now w key differenceKey ops).1.statusCode = -2 ∧
      (rl.limitIncr .ok now w key differenceKey ops).1.error =
        some "Too many requests.") := by
  have hle : jsLe (.int (w.redis.incr now key).1) rl.maxRequest = false := by
    simp [jsLe]
    omega
  cases hcache : rl.hasLocalCache <;>
    simp [RateLimit.limitIncr, hle, hcache, RateLimit.createErrorResponse,
      RateLimit.createLimitResponse, RateLimit.getRemainingAndTTL, jsNumIsUndefined]

/-- C10 witness: a concrete over-limit increment with the cache disabled. -/
theorem c10_witness :
    (RateLimit.limitIncr ⟨"p", 1000, 1, 0, false⟩ .ok 0
      ⟨⟨[("p:a", 1)], []⟩, ⟨[]⟩⟩ "p:a" "p:a:last" 0).1.success = false ∧
    (RateLimit.limitIncr ⟨"p", 1000, 1, 0, false⟩ .ok 0
      ⟨⟨[("p:a", 1)], []⟩, ⟨[]⟩⟩ "p:a" "p:a:last" 0).1.statusCode = 0 := by
  have h := c10_over_limit_status_code ⟨"p", 1000, 1, 0, false⟩ 0
    ⟨⟨[("p:a", 1)], []⟩, ⟨[]⟩⟩ "p:a" "p:a:last" 0 (by decide)
  exact ⟨h.1, (h.2.1 rfl).1⟩

/--
C3 counterexample: the cooldown timestamp `<key>:last` is refreshed only
by calls that reach the increment transaction, so two calls spaced less
than `difference` apart need not see the second rejected.  With
difference 500 a first call at time 0 writes the timestamp; a call at
time 499 is rejected for cooldown (statusCode -3) and writes nothing; a
third call at time 501 — only 2 milliseconds after the second — finds
the timestamp key expired and is admitted, contradicting the claim for
the pair of calls at 499 and 501.
-/
theorem c3_counterexample :
    ((RateLimit.limit ⟨"p", 1000, 5, 500, false⟩ .ok 499
        (RateLimit.limit ⟨"p", 1000, 5, 500, false⟩ .ok 0 freshWorld "a").2.1
        "a").1.statusCode = -3) ∧
    ((RateLimit.limit ⟨"p", 1000, 5, 500, false⟩ .ok 501
        (RateLimit.limit ⟨"p", 1000, 5, 500, false⟩ .ok 499
          (RateLimit.limit ⟨"p", 1000, 5, 500, false⟩ .ok 0 freshWorld "a").2.1
          "a").2.1
        "a").1.success = true) ∧
    ((501 : Int) - 499 < 500) := by decide

/--
C3 (amended): when the cooldown is active and the local fast path does
not block, a call arriving strictly less than `difference` milliseconds
after the stored last-request timestamp is rejected with the distinct
"too soon" reason (statusCode -3); the rejection is decided before the
increment transaction and leaves the remote store, and hence the quota
counter, completely unchanged.
-/
theorem c3_cooldown_rejects_before_increment (rl : RateLimit) (now t0 : Int)
    (w : World) (id : String)
    (hd : 0 < rl.difference)
    (hnb : rl.hasLocalCache = false ∨
      (w.cache.isBlocked now (rl.keyPrefix ++ ":" ++ id)).1.1 = false)
    (hlast : w.redis.get now (rl.keyPrefix ++ ":" ++ id ++ ":last") = some t0)
    (hsoon : now - t0 < rl.difference) :
    (rl.limit .ok now w id).1.statusCode = -3 ∧
    (rl.limit .ok now w id).1.error = some "Request too soon after the last one." ∧
    (rl.limit .ok now w id).1.success = false ∧
    (rl.limit .ok now w id).2.1.redis = w.redis := by
  have hdne : rl.difference ≠ 0 := by omega
  rcases hnb with hnb | hnb
  · simp [RateLimit.limit, hnb, hdne, hlast, hsoon,
      RateLimit.createErrorResponse, RateLimit.getKeyInfo]
  · cases hcache : rl.hasLocalCache <;>
      simp [RateLimit.limit, hcache, hnb, hdne, hlast, hsoon,
        RateLimit.createErrorResponse, RateLimit.getKeyInfo]

/-- C3 witness: a concrete call 10 milliseconds after the stored timestamp. -/
theorem c3_witness :
    (RateLimit.limit ⟨"p", 1000, 5, 500, false⟩ .ok 20
      ⟨⟨[("p:a:last", 10)], []⟩, ⟨[]⟩⟩ "a").1.statusCode = -3 ∧
    (RateLimit.limit ⟨"p", 1000, 5, 500, false⟩ .ok 20
      ⟨⟨[("p:a:last", 10)], []⟩, ⟨[]⟩⟩ "a").2.1.redis =
      (⟨[("p:a:last", 10)], []⟩ : Redis) := by
  have h := c3_cooldown_rejects_before_increment ⟨"p", 1000, 5, 500, false⟩ 20 10
    ⟨⟨[("p:a:last", 10)], []⟩, ⟨[]⟩⟩ "a" (by decide) (Or.inl rfl) (by decide) (by decide)
  exact ⟨h.1, h.2.2.2⟩

theorem limit_step_fresh (rl : RateLimit) (now : Int) (id : String)
    (hw : 0 < rl.window) (hd : rl.difference = 0) (hm : 1 ≤ rl.maxRequest) :
    rl.limit .ok now freshWorld id =
      (rl.createLimitResponse true (.int (max (rl.maxRequest - 1) 0)) rl.window
        (rl.keyPrefix ++ ":" ++ id),
       countingWorld (rl.keyPrefix ++ ":" ++ id) now rl.window 1, 5) := by
  have h2 : rl.keyPrefix ++ ":" ++ id ≠ rl.keyPrefix ++ ":" ++ id ++ ":last" :=
    Ne.symm (appendLast_ne _)
  have hw' : ¬ rl.window ≤ 0 := by omega
  have hlt : now < now + rl.window := by omega
  have hm' : jsLe (.int 1) rl.maxRequest = true := by
    simp [jsLe]
    omega
  cases hcache : rl.hasLocalCache <;>
    simp [RateLimit.limit, RateLimit.limitIncr, freshWorld, countingWorld,
      Cache.isBlocked, lookup, insertKey, removeKey, Redis.incr, Redis.get,
      Redis.live, Redis.set, Redis.pexpire, Redis.del, Redis.pttl,
      RateLimit.getRemainingAndTTL, jsMax0, jsSubL, jsNumIsUndefined, hcache,
      hd, hw', hlt, hm', h2, add_sub_cancel_left]

theorem limit_step_next (rl : RateLimit) (now : Int) (id : String) (k : Int)
    (hw : 0 < rl.window) (hd : rl.difference = 0) (hk0 : 0 < k)
    (hk : k + 1 ≤ rl.maxRequest) :
    rl.limit .ok now (countingWorld (rl.keyPrefix ++ ":" ++ id) now rl.window k) id =
      (rl.createLimitResponse true (.int (max (rl.maxRequest - (k + 1)) 0)) rl.window
        (rl.keyPrefix ++ ":" ++ id),
       countingWorld (rl.keyPrefix ++ ":" ++ id) now rl.window (k + 1), 4) := by
  have h2 : rl.keyPrefix ++ ":" ++ id ≠ rl.keyPrefix ++ ":" ++ id ++ ":last" :=
    Ne.symm (appendLast_ne _)
  have hw' : ¬ rl.window ≤ 0 := by omega
  have hlt : now < now + rl.window := by omega
  have hkne : ¬ k + 1 = 1 := by omega
  have hsucc : jsLe (.int (k + 1)) rl.maxRequest = true := by
    simp [jsLe]
    omega
  cases hcache : rl.hasLocalCache <;>
    simp [RateLimit.limit, RateLimit.limitIncr, countingWorld,
      Cache.isBlocked, lookup, insertKey, removeKey, Redis.incr, Redis.get,
      Redis.live, Redis.set, Redis.pexpire, Redis.del, Redis.pttl,
      RateLimit.getRemainingAndTTL, jsMax0, jsSubL, jsNumIsUndefined, hcache,
      hd, hw', hlt, hkne, hsucc, h2, add_sub_cancel_left]

theorem limit_step_over (rl : RateLimit) (now : Int) (id : String) (k : Int)
    (hw : 0 < rl.window) (hd : rl.difference = 0) (hk0 : 0 < k)
    (hk : rl.maxRequest < k + 1) :
    (rl.limit .ok now
      (countingWorld (rl.keyPrefix ++ ":" ++ id) now rl.window k) id).1.success
        = false ∧
    (rl.limit .ok now
      (countingWorld (rl.keyPrefix ++ ":" ++ id) now rl.window k) id).1.remaining
        = .int 0 := by
  have h2 : rl.keyPrefix ++ ":" ++ id ≠ rl.keyPrefix ++ ":" ++ id ++ ":last" :=
    Ne.symm (appendLast_ne _)
  have hw' : ¬ rl.window ≤ 0 := by omega
  have hlt : now < now + rl.window := by omega
  have hkne : ¬ k + 1 = 1 := by omega
  have hfail : jsLe (.int (k + 1)) rl.maxRequest = false := by
    simp [jsLe]
    omega
  have hmax : max (rl.maxRequest - (k + 1)) 0 = 0 := by omega
  cases hcache : rl.hasLocalCache <;>
    simp [RateLimit.limit, RateLimit.limitIncr, countingWorld,
      Cache.isBlocked, lookup, insertKey, removeKey, Redis.incr, Redis.get,
      Redis.live, Redis.set, Redis.pexpire, Redis.del, Redis.pttl,
      RateLimit.getRemainingAndTTL, jsMax0, jsSubL, jsNumIsUndefined, hcache,
      hd, hw', hlt, hkne, hfail, hmax, h2,
      RateLimit.createLimitResponse, RateLimit.createErrorResponse,
      add_sub_cancel_left]

theorem runCalls_counting (rl : RateLimit) (now : Int) (id : String)
    (hw : 0 < rl.window) (hd : rl.difference = 0) (hm : 1 ≤ rl.maxRequest) :
    ∀ n : Nat, 0 < n → (n : Int) ≤ rl.maxRequest →
      runCalls rl now id n =
        countingWorld (rl.keyPrefix ++ ":" ++ id) now rl.window (n : Int) := by
  intro n
  induction n with
  | zero => omega
  | succ n ih =>
    intro _ hn
    rw [runCalls]
    rcases Nat.eq_zero_or_pos n with h0 | hpos
    · subst h0
      rw [show runCalls rl now id 0 = freshWorld from rfl,
        limit_step_fresh rl now id hw hd hm]
      norm_num
    · have hn' : (n : Int) + 1 ≤ rl.maxRequest := by push_cast at hn; omega
      rw [ih hpos (by omega),
        limit_step_next rl now id (n : Int) hw hd (by exact_mod_cast hpos) hn']
      push_cast
      rfl

/--
C1 counterexample: the claim quantifies over every configuration, but
with a cooldown configured (difference 500, limit 2, window 1000) two
back-to-back calls at the same instant — certainly within the window —
do not both succeed for a fresh identifier: the second is rejected for
cooldown (statusCode -3), so fewer than `limit` of the first `limit`
calls return success.
-/
theorem c1_counterexample :
    (nthCallResp ⟨"p", 1000, 2, 500, false⟩ 0 "a" 0).success = true ∧
    (nthCallResp ⟨"p", 1000, 2, 500, false⟩ 0 "a" 1).success = false ∧
    (nthCallResp ⟨"p", 1000, 2, 500, false⟩ 0 "a" 1).statusCode = -3 := by decide

/--
C1 (amended): for every configuration with the cooldown disabled
(difference 0) and a positive window, and every fresh identifier, the
first `limit` calls within the window (here: at one instant) succeed,
the `n`-th returning `remaining = limit - n` with statusCode 0 and no
error field — so in each of them `success = (current <= limit)` and
`remaining = max(limit - current, 0)` for the post-increment counter
value `current = n` — and the `(limit+1)`-th call returns success false
with remaining 0.
-/
theorem c1_quota_for_fresh_identifier (rl : RateLimit) (now : Int) (id : String)
    (m : Nat) (hw : 0 < rl.window) (hd : rl.difference = 0)
    (hm : rl.maxRequest = (m : Int)) (hm1 : 1 ≤ m) :
    (∀ n : Nat, n < m →
      (nthCallResp rl now id n).success = true ∧
      (nthCallResp rl now id n).remaining = .int ((m : Int) - ((n : Int) + 1)) ∧
      (nthCallResp rl now id n).statusCode = 0 ∧
      (nthCallResp rl now id n).error = none) ∧
    (nthCallResp rl now id m).success = false ∧
    (nthCallResp rl now id m).remaining = .int 0 := by
  have hm' : 1 ≤ rl.maxRequest := by
    rw [hm]
    exact_mod_cast hm1
  constructor
  · intro n hn
    unfold nthCallResp
    rcases Nat.eq_zero_or_pos n with h0 | hpos
    · subst h0
      rw [show runCalls rl now id 0 = freshWorld from rfl,
        limit_step_fresh rl now id hw hd hm']
      refine ⟨rfl, ?_, rfl, rfl⟩
      simp only [RateLimit.createLimitResponse, hm, JSNum.int.injEq]
      omega
    · have hnint : (n : Int) + 1 ≤ rl.maxRequest := by
        rw [hm]
        omega
      rw [runCalls_counting rl now id hw hd hm' n hpos (by rw [hm]; omega),
        limit_step_next rl now id (n : Int) hw hd (by exact_mod_cast hpos) hnint]
      refine ⟨rfl, ?_, rfl, rfl⟩
      simp only [RateLimit.createLimitResponse, hm, JSNum.int.injEq]
      omega
  · unfold nthCallResp
    rw [runCalls_counting rl now id hw hd hm' m hm1 (by rw [hm])]
    exact limit_step_over rl now id (m : Int) hw hd (by exact_mod_cast hm1)
      (by rw [hm]; omega)

/-- C1 witness: limit 2, window 1000, no cooldown, cache enabled. -/
theorem c1_witness :
    (nthCallResp ⟨"p", 1000, 2, 0, true⟩ 0 "a" 0).success = true ∧
    (nthCallResp ⟨"p", 1000, 2, 0, true⟩ 0 "a" 2).success = false ∧
    (nthCallResp ⟨"p", 1000, 2, 0, true⟩ 0 "a" 2).remaining = .int 0 := by
  have h := c1_quota_for_fresh_identifier ⟨"p", 1000, 2, 0, true⟩ 0 "a" 2
    (by decide) rfl (by decide) (by decide)
  exact ⟨(h.1 0 (by decide)).1, h.2.1, h.2.2⟩

end RedisRateLimit
